import Mathlib

/-!
Verification of the MRKL routing module
(`langchain/routing_chains/mrkl/base.py`).

The Python source is shallowly embedded here:

* `get_action_and_input` is the line-oriented parser that turns raw LLM
  output into either a `("Final Answer", output)` directive (the *Finish*
  directive) or an `(action, action_input)` directive (the *Action*
  directive).  Python exceptions are made explicit in the return type
  `Except PyErr (String × String)`: the two `raise ValueError(...)` sites
  become `PyErr.valueError msg`, and an out-of-range negative index
  (`ps[-1]` or `ps[-2]`, Python `IndexError`) becomes `PyErr.indexError`.
* Python string primitives used by the source (`str.split("\n")`,
  `str.startswith`, slicing `s[n:]`, `str.strip(c)`) are modelled
  character-exactly on `List Char` by the `py*` functions below.
* `ZeroShotRouter.from_llm_and_tools`, `MRKLChain.from_chains` and
  `MRKLChain.from_tools_and_llm` are embedded structurally; collaborators
  that live outside this module (the LLM object, the tool callables, the
  `BASE_TEMPLATE.format` text substitution and the extra `**kwargs`) are
  type parameters / function parameters, since their internals never
  matter to the properties proved here.
-/

/-- Python runtime errors that can escape `get_action_and_input`:
`valueError msg` models `raise ValueError(msg)`, and `indexError` models
the `IndexError` raised by an out-of-range negative list index. -/
inductive PyErr where
  | indexError : PyErr
  | valueError : String → PyErr
deriving DecidableEq

instance {e a : Type} [DecidableEq e] [DecidableEq a] : DecidableEq (Except e a) :=
  fun x y =>
    match x, y with
    | Except.ok u, Except.ok v =>
      if h : u = v then Decidable.isTrue (by rw [h])
      else Decidable.isFalse (fun hh => h (Except.ok.inj hh))
    | Except.error u, Except.error v =>
      if h : u = v then Decidable.isTrue (by rw [h])
      else Decidable.isFalse (fun hh => h (Except.error.inj hh))
    | Except.ok _, Except.error _ =>
      Decidable.isFalse (fun hh => Except.noConfusion hh)
    | Except.error _, Except.ok _ =>
      Decidable.isFalse (fun hh => Except.noConfusion hh)

/-- Python `s.split("\n")` on the character list: split on every newline
character, keeping empty segments (so `"".split("\n") == [""]`). -/
def pySplitLines : List Char → List (List Char)
  | [] => [[]]
  | c :: cs =>
    match pySplitLines cs with
    | [] => [[]]
    | h :: t => if c = '\n' then [] :: h :: t else (c :: h) :: t

/-- Python `s.startswith(p)`. -/
def pyStartsWith (s p : String) : Bool :=
  p.data.isPrefixOf s.data

/-- Python slicing `s[n:]` (empty when `n` is past the end). -/
def pySliceFrom (s : String) (n : Nat) : String :=
  String.mk (s.data.drop n)

/-- Python `s.strip(c)` for a single-character argument: remove every
leading and every trailing occurrence of `c` (each end independently). -/
def pyStripChar (s : String) (c : Char) : String :=
  String.mk (((s.data.dropWhile (fun a => a = c)).reverse.dropWhile
    (fun a => a = c)).reverse)

/-- `FINAL_ANSWER_ACTION = "Final Answer: "` from the source. -/
def FINAL_ANSWER_ACTION : String := "Final Answer: "

/-- `ps = [p for p in llm_output.split("\n") if p]`: the non-empty lines
of the raw LLM output, in order. -/
def nonEmptyLines (llm_output : String) : List String :=
  ((pySplitLines llm_output.data).map String.mk).filter (fun p => p ≠ "")

/-- The Action/Action-Input half of `get_action_and_input` (the code after
the Final-Answer test): require the last line to start with
`"Action Input: "`, read `ps[-2]` (IndexError when there is no such
element), require it to start with `"Action: "`, then return the pair
`(ps[-2][len("Action: "):], ps[-1][len("Action Input: "):].strip(" ").strip('"'))`. -/
def actionChecks (ps : List String) (lastLine : String) :
    Except PyErr (String × String) :=
  if !pyStartsWith lastLine "Action Input: " then
    Except.error (PyErr.valueError
      "The last line does not have an action input, something has gone terribly wrong.")
  else
    match ps.dropLast.getLast? with
    | none => Except.error PyErr.indexError
    | some secondLast =>
      if !pyStartsWith secondLast "Action: " then
        Except.error (PyErr.valueError
          "The second to last line does not have an action, something has gone terribly wrong.")
      else
        Except.ok (pySliceFrom secondLast "Action: ".length,
          pyStripChar (pyStripChar (pySliceFrom lastLine "Action Input: ".length) ' ') '"')

/-- `get_action_and_input(llm_output)` from the source: split into
non-empty lines; if `ps[-1]` starts with `"Final Answer"` return
`("Final Answer", ps[-1][len(FINAL_ANSWER_ACTION):])`; otherwise run the
Action/Action-Input checks.  `ps[-1]` on an empty list is an IndexError. -/
def get_action_and_input (llm_output : String) :
    Except PyErr (String × String) :=
  match (nonEmptyLines llm_output).getLast? with
  | none => Except.error PyErr.indexError
  | some lastLine =>
    if pyStartsWith lastLine "Final Answer" then
      Except.ok ("Final Answer", pySliceFrom lastLine FINAL_ANSWER_ACTION.length)
    else
      actionChecks (nonEmptyLines llm_output) lastLine

/-- `Tool(name=..., func=..., description=...)` from
`langchain.routing_chains.tools`; the callable is a type parameter. -/
structure Tool (F : Type) where
  name : String
  func : F
  description : String
deriving DecidableEq

/-- `ChainConfig` from the source: `(action_name, action, action_description)`. -/
structure ChainConfig (F : Type) where
  action_name : String
  action : F
  action_description : String
deriving DecidableEq

/-- `PromptTemplate(template=..., input_variables=...)` (collaborator;
only its constructor arguments matter here). -/
structure PromptTemplate where
  template : String
  input_variables : List String
deriving DecidableEq

/-- `LLMChain(llm=..., prompt=...)` (collaborator; only its constructor
arguments matter here). -/
structure LLMChain (L : Type) where
  llm : L
  prompt : PromptTemplate
deriving DecidableEq

/-- `ZeroShotRouter`: stores the `llm_chain` it is constructed with. -/
structure ZeroShotRouter (L : Type) where
  llm_chain : LLMChain L
deriving DecidableEq

/-- `"\n".join([f"{tool.name}: {tool.description}" for tool in tools])`
(the rendered tool catalog, line 66 of the source). -/
def tool_strings {F : Type} (tools : List (Tool F)) : String :=
  String.intercalate "\n" (tools.map (fun tool => tool.name ++ ": " ++ tool.description))

/-- `", ".join([tool.name for tool in tools])` (the rendered tool names,
line 67 of the source). -/
def tool_names {F : Type} (tools : List (Tool F)) : String :=
  String.intercalate ", " (tools.map (fun tool => tool.name))

/-- `ZeroShotRouter.from_llm_and_tools`: render the catalog and the name
list, substitute them into the base template (`BASE_TEMPLATE.format`, a
collaborator passed here as the function `fmt`), build the prompt and the
LLM chain, and construct the router. -/
def ZeroShotRouter.from_llm_and_tools {L F : Type}
    (fmt : String → String → String) (llm : L) (tools : List (Tool F)) :
    ZeroShotRouter L :=
  let template := fmt (tool_strings tools) (tool_names tools)
  let prompt : PromptTemplate := { template := template, input_variables := ["input"] }
  let llm_chain : LLMChain L := { llm := llm, prompt := prompt }
  { llm_chain := llm_chain }

/-- `MRKLChain(router=..., tools=..., **kwargs)`: the chain stores its
constructor arguments; the extra keyword arguments are a type parameter. -/
structure MRKLChain (L F K : Type) where
  router : ZeroShotRouter L
  tools : List (Tool F)
  kwargs : K
deriving DecidableEq

/-- `MRKLChain.from_tools_and_llm(tools, llm, **kwargs)`: build the
zero-shot router from the LLM and the tools and construct the chain. -/
def MRKLChain.from_tools_and_llm {L F K : Type}
    (fmt : String → String → String) (tools : List (Tool F)) (llm : L)
    (kwargs : K) : MRKLChain L F K :=
  { router := ZeroShotRouter.from_llm_and_tools fmt llm tools,
    tools := tools, kwargs := kwargs }

/-- `MRKLChain.from_chains(llm, chains, **kwargs)`: convert each
`ChainConfig` to a `Tool` and delegate to `from_tools_and_llm`. -/
def MRKLChain.from_chains {L F K : Type}
    (fmt : String → String → String) (llm : L)
    (chains : List (ChainConfig F)) (kwargs : K) : MRKLChain L F K :=
  let tools := chains.map
    (fun c => Tool.mk c.action_name c.action c.action_description)
  MRKLChain.from_tools_and_llm fmt tools llm kwargs

/-! ### Helper lemmas about the Python string primitives -/

theorem isPrefixOf_append_true :
    ∀ (p l m : List Char), p.isPrefixOf l = true → p.isPrefixOf (l ++ m) = true
  | [], _, _, _ => by simp [List.isPrefixOf]
  | _ :: _, [], _, h => by simp [List.isPrefixOf] at h
  | a :: as, b :: bs, m, h => by
    simp only [List.cons_append, List.isPrefixOf, Bool.and_eq_true] at h ⊢
    exact ⟨h.1, isPrefixOf_append_true as bs m h.2⟩

theorem isPrefixOf_append_false :
    ∀ (p l m : List Char), p.length ≤ l.length → p.isPrefixOf l = false →
      p.isPrefixOf (l ++ m) = false
  | [], _, _, _, h => by simp [List.isPrefixOf] at h
  | _ :: _, [], _, hlen, _ => by simp at hlen
  | a :: as, b :: bs, m, hlen, h => by
    cases hab : (a == b) with
    | false => simp [List.isPrefixOf, hab]
    | true =>
      have h' : as.isPrefixOf bs = false := by
        simpa [List.isPrefixOf, hab] using h
      have hlen' : as.length ≤ bs.length := by
        simpa using Nat.le_of_succ_le_succ (by simpa using hlen)
      simpa [List.isPrefixOf, hab] using isPrefixOf_append_false as bs m hlen' h'

theorem pyStartsWith_append_true {p q : String} (h : pyStartsWith q p = true)
    (r : String) : pyStartsWith (q ++ r) p = true := by
  unfold pyStartsWith at h ⊢
  rw [String.data_append]
  exact isPrefixOf_append_true _ _ _ h

theorem pyStartsWith_append_false {p q : String} (hlen : p.length ≤ q.length)
    (h : pyStartsWith q p = false) (r : String) :
    pyStartsWith (q ++ r) p = false := by
  unfold pyStartsWith at h ⊢
  rw [String.data_append]
  exact isPrefixOf_append_false _ _ _ hlen h

theorem pySliceFrom_append (p r : String) :
    pySliceFrom (p ++ r) p.length = r := by
  unfold pySliceFrom
  rw [String.data_append]
  rw [show p.length = p.data.length from rfl]
  rw [List.drop_left]

/-! ### Unfolding lemmas for the parser -/

theorem get_eq_of_no_line (s : String)
    (h : (nonEmptyLines s).getLast? = none) :
    get_action_and_input s = Except.error PyErr.indexError := by
  unfold get_action_and_input
  rw [h]

theorem get_eq_of_lastLine (s lastLine : String)
    (h : (nonEmptyLines s).getLast? = some lastLine) :
    get_action_and_input s =
      if pyStartsWith lastLine "Final Answer" then
        Except.ok ("Final Answer", pySliceFrom lastLine FINAL_ANSWER_ACTION.length)
      else
        actionChecks (nonEmptyLines s) lastLine := by
  unfold get_action_and_input
  rw [h]

theorem actionChecks_eq_of_not_actionInput (ps : List String) (l : String)
    (h : pyStartsWith l "Action Input: " = false) :
    actionChecks ps l = Except.error (PyErr.valueError
      "The last line does not have an action input, something has gone terribly wrong.") := by
  unfold actionChecks
  rw [h]
  rfl

theorem actionChecks_eq_of_no_secondLast (ps : List String) (l : String)
    (hai : pyStartsWith l "Action Input: " = true)
    (h : ps.dropLast.getLast? = none) :
    actionChecks ps l = Except.error PyErr.indexError := by
  unfold actionChecks
  rw [hai, h]
  rfl

theorem actionChecks_eq_of_secondLast (ps : List String) (l secondLast : String)
    (hai : pyStartsWith l "Action Input: " = true)
    (h : ps.dropLast.getLast? = some secondLast) :
    actionChecks ps l =
      if !pyStartsWith secondLast "Action: " then
        Except.error (PyErr.valueError
          "The second to last line does not have an action, something has gone terribly wrong.")
      else
        Except.ok (pySliceFrom secondLast "Action: ".length,
          pyStripChar (pyStripChar (pySliceFrom l "Action Input: ".length) ' ') '"') := by
  unfold actionChecks
  rw [hai, h]
  rfl

/-! ### Claim theorems -/

/-- C2: for every input whose last non-empty line is `"Final Answer: X"`,
the parser returns the Finish directive `("Final Answer", X)`, regardless
of how many lines precede it (including zero); the Final-Answer test is
tried first and short-circuits the Action checks. -/
theorem final_answer_line_parses (s X : String)
    (h : (nonEmptyLines s).getLast? = some ("Final Answer: " ++ X)) :
    get_action_and_input s = Except.ok ("Final Answer", X) := by
  rw [get_eq_of_lastLine s _ h]
  have hsw : pyStartsWith ("Final Answer: " ++ X) "Final Answer" = true :=
    pyStartsWith_append_true (by decide) X
  rw [if_pos hsw]
  rw [show pySliceFrom ("Final Answer: " ++ X) FINAL_ANSWER_ACTION.length = X from
    pySliceFrom_append "Final Answer: " X]

/-- Witness for C2 at a concrete input with one preceding scratch line. -/
theorem final_answer_line_parses_witness :
    get_action_and_input "I know now.\nFinal Answer: Paris" =
      Except.ok ("Final Answer", "Paris") :=
  final_answer_line_parses "I know now.\nFinal Answer: Paris" "Paris" (by decide)

/-- C1 (counterexample): the claim says exactly one layer of surrounding
double quotes is stripped from the action input, so on the last line
`Action Input: ""x""` (that is, `"X"` with `X = "x"` including its own
quotes) the result should be `("T", "\"x\"")`.  The code strips every
leading and trailing quote character, returning `("T", "x")`. -/
theorem action_input_quote_layers_counterexample :
    get_action_and_input "Action: T\nAction Input: \"\"x\"\"" =
        Except.ok ("T", "x") ∧
      get_action_and_input "Action: T\nAction Input: \"\"x\"\"" ≠
        Except.ok ("T", "\"x\"") :=
  ⟨by decide, by decide⟩

/-- C1 (amended): for every input whose last two non-empty lines are
`"Action: T"` followed by `"Action Input: R"`, the parser returns the
Action directive `(T, R')` where `T` is taken verbatim (no trimming) and
`R'` is `R` with all leading and trailing space characters removed and
then all leading and trailing double-quote characters removed — each end
independently and greedily (Python `strip`), not a single layer requiring
quotes on both ends. -/
theorem action_and_input_parse (s T R : String)
    (hl : (nonEmptyLines s).getLast? = some ("Action Input: " ++ R))
    (hsl : (nonEmptyLines s).dropLast.getLast? = some ("Action: " ++ T)) :
    get_action_and_input s =
      Except.ok (T, pyStripChar (pyStripChar R ' ') '"') := by
  have hfa : pyStartsWith ("Action Input: " ++ R) "Final Answer" = false :=
    pyStartsWith_append_false (by decide) (by decide) R
  have hai : pyStartsWith ("Action Input: " ++ R) "Action Input: " = true :=
    pyStartsWith_append_true (by decide) R
  have hac : pyStartsWith ("Action: " ++ T) "Action: " = true :=
    pyStartsWith_append_true (by decide) T
  rw [get_eq_of_lastLine s _ hl, if_neg (by simp [hfa]),
    actionChecks_eq_of_secondLast _ _ _ hai hsl, if_neg (by simp [hac])]
  rw [show pySliceFrom ("Action: " ++ T) "Action: ".length = T from
    pySliceFrom_append _ _]
  rw [show pySliceFrom ("Action Input: " ++ R) "Action Input: ".length = R from
    pySliceFrom_append _ _]

/-- Witness for the amended C1 at a concrete well-formed two-line input. -/
theorem action_and_input_parse_witness :
    get_action_and_input "Action: Search\nAction Input: \"capital of France\"" =
      Except.ok ("Search", "capital of France") := by
  have h := action_and_input_parse
    "Action: Search\nAction Input: \"capital of France\""
    "Search" "\"capital of France\"" (by decide) (by decide)
  exact h.trans (by decide)

/-- C3 (counterexample): the claim says the access to the second-to-last
line is guarded, so an input with a single non-empty line never causes an
out-of-bounds index under-flow.  But on the single-line input
`"Action Input: x"` the code passes the `"Action Input: "` test and then
reads `ps[-2]` of a one-element list, raising an IndexError — not a typed
`ValueError` (`MalformedDirective`). -/
theorem unguarded_second_last_counterexample :
    get_action_and_input "Action Input: x" = Except.error PyErr.indexError := by
  decide

/-- C3 (amended): the parser always returns a directive, a `ValueError`,
or an `IndexError`, and the `IndexError` escapes exactly when either
there is no non-empty line at all, or the last non-empty line does not
start with `"Final Answer"`, starts with `"Action Input: "`, and there is
no second-to-last non-empty line (the unguarded `ps[-2]` access). -/
theorem parser_index_error_characterization (s : String) :
    ((∃ d, get_action_and_input s = Except.ok d) ∨
      (∃ msg, get_action_and_input s = Except.error (PyErr.valueError msg)) ∨
      get_action_and_input s = Except.error PyErr.indexError) ∧
    (get_action_and_input s = Except.error PyErr.indexError ↔
      ((nonEmptyLines s).getLast? = none ∨
        ∃ lastLine, (nonEmptyLines s).getLast? = some lastLine ∧
          (nonEmptyLines s).dropLast.getLast? = none ∧
          pyStartsWith lastLine "Final Answer" = false ∧
          pyStartsWith lastLine "Action Input: " = true)) := by
  constructor
  · cases hr : get_action_and_input s with
    | ok d => exact Or.inl ⟨d, rfl⟩
    | error e =>
      cases e with
      | indexError => exact Or.inr (Or.inr rfl)
      | valueError msg => exact Or.inr (Or.inl ⟨msg, rfl⟩)
  · cases hl : (nonEmptyLines s).getLast? with
    | none => simp [get_eq_of_no_line s hl]
    | some lastLine =>
      rw [get_eq_of_lastLine s lastLine hl]
      cases hfa : pyStartsWith lastLine "Final Answer" with
      | true => simp [hfa, hl]
      | false =>
        rw [if_neg (by simp [hfa])]
        cases hai : pyStartsWith lastLine "Action Input: " with
        | false =>
          rw [actionChecks_eq_of_not_actionInput _ _ hai]
          simp [hl, hfa, hai]
        | true =>
          cases hsl : (nonEmptyLines s).dropLast.getLast? with
          | none =>
            rw [actionChecks_eq_of_no_secondLast _ _ hai hsl]
            simp [hl, hfa, hai, hsl]
          | some secondLast =>
            rw [actionChecks_eq_of_secondLast _ _ secondLast hai hsl]
            cases hac : pyStartsWith secondLast "Action: " with
            | false => simp [hac, hl, hfa, hai, hsl]
            | true => simp [hac, hl, hfa, hai, hsl]

/-- C4 (counterexample): for the single non-empty line `"hello"` (neither
a Final Answer line nor an Action Input line) the claim predicts the
missing-action cause ("second to last line does not have an action");
the code instead raises the missing-action-input `ValueError`, because
the `"Action Input: "` test runs first. -/
theorem single_line_cause_counterexample :
    get_action_and_input "hello" = Except.error (PyErr.valueError
        "The last line does not have an action input, something has gone terribly wrong.") ∧
      get_action_and_input "hello" ≠ Except.error (PyErr.valueError
        "The second to last line does not have an action, something has gone terribly wrong.") :=
  ⟨by decide, by decide⟩

/-- C4 (amended): for every input with exactly one non-empty line that is
neither a Final Answer line nor an Action Input line, parsing fails with
the missing-action-input `ValueError` (not the missing-action one). -/
theorem single_line_missing_action_input (s lastLine : String)
    (h : nonEmptyLines s = [lastLine])
    (hfa : pyStartsWith lastLine "Final Answer" = false)
    (hai : pyStartsWith lastLine "Action Input: " = false) :
    get_action_and_input s = Except.error (PyErr.valueError
      "The last line does not have an action input, something has gone terribly wrong.") := by
  have hl : (nonEmptyLines s).getLast? = some lastLine := by rw [h]; rfl
  rw [get_eq_of_lastLine s lastLine hl, if_neg (by simp [hfa])]
  exact actionChecks_eq_of_not_actionInput _ _ hai

/-- Witness for the amended C4 at the concrete single-line input `"bogus"`. -/
theorem single_line_missing_action_input_witness :
    get_action_and_input "bogus" = Except.error (PyErr.valueError
      "The last line does not have an action input, something has gone terribly wrong.") :=
  single_line_missing_action_input "bogus" "bogus" (by decide) (by decide) (by decide)

/-- C5 (counterexample): on input with no non-empty line (here the empty
string; `"\n\n"` behaves identically) the parser raises an IndexError
from the unguarded `ps[-1]` access — an untyped error, not the typed
`MalformedDirective(EmptyOutput)` the claim requires (the code has no
such error at all). -/
theorem empty_output_counterexample :
    get_action_and_input "" = Except.error PyErr.indexError := by decide

/-- C5 (amended): for every input with no non-empty lines, the parser
fails with the untyped IndexError from the `ps[-1]` access. -/
theorem empty_output_index_error (s : String) (h : nonEmptyLines s = []) :
    get_action_and_input s = Except.error PyErr.indexError := by
  apply get_eq_of_no_line
  rw [h]
  rfl

/-- Witness for the amended C5 at the concrete whitespace-only input. -/
theorem empty_output_index_error_witness :
    get_action_and_input "\n\n" = Except.error PyErr.indexError :=
  empty_output_index_error "\n\n" (by decide)

/-- C6 (counterexample): the last line `"Final Answer?"` neither begins
with `"Final Answer: "` nor consists of `"Final Answer"` with an empty
remainder, so the claim says the parser must proceed to the Action
checks (which here would raise the missing-action-input error).  The
code tests only the shorter prefix `"Final Answer"`, so it produces a
Finish directive (with empty output, since the slice starts past the end
of the 13-character line) instead of running the Action checks. -/
theorem finish_condition_counterexample :
    get_action_and_input "Final Answer?" = Except.ok ("Final Answer", "") ∧
      get_action_and_input "Final Answer?" ≠
        actionChecks (nonEmptyLines "Final Answer?") "Final Answer?" :=
  ⟨by decide, by decide⟩

/-- C6 (amended): the parser takes the Finish branch exactly when the
last non-empty line begins with the literal prefix `"Final Answer"`
(colon and space not required), returning the text from character
offset `len("Final Answer: ") = 14` onward (empty when the line is
shorter); for every other last line it proceeds to the Action/Action
Input checks. -/
theorem finish_branch_characterization (s lastLine : String)
    (h : (nonEmptyLines s).getLast? = some lastLine) :
    (pyStartsWith lastLine "Final Answer" = true →
      get_action_and_input s =
        Except.ok ("Final Answer", pySliceFrom lastLine FINAL_ANSWER_ACTION.length)) ∧
    (pyStartsWith lastLine "Final Answer" = false →
      get_action_and_input s = actionChecks (nonEmptyLines s) lastLine) := by
  constructor
  · intro hfa
    rw [get_eq_of_lastLine s _ h, if_pos hfa]
  · intro hfa
    rw [get_eq_of_lastLine s _ h, if_neg (by simp [hfa])]

/-- Witness for the amended C6 at a concrete Final-Answer input. -/
theorem finish_branch_characterization_witness :
    get_action_and_input "Final Answer: 42" = Except.ok ("Final Answer", "42") := by
  have h := (finish_branch_characterization "Final Answer: 42" "Final Answer: 42"
    (by decide)).1 (by decide)
  exact h.trans (by decide)

/-- C7: for every input with at least two non-empty lines whose last line
is not a Final Answer line: if the last line starts with
`"Action Input: "` but the second-to-last does not start with
`"Action: "`, parsing fails with the missing-action `ValueError`; if the
last line does not start with `"Action Input: "`, parsing fails with the
missing-action-input `ValueError`; and the two failure causes are
distinct values. -/
theorem two_line_error_causes (s lastLine secondLast : String)
    (hl : (nonEmptyLines s).getLast? = some lastLine)
    (hsl : (nonEmptyLines s).dropLast.getLast? = some secondLast)
    (hfa : pyStartsWith lastLine "Final Answer" = false) :
    (pyStartsWith lastLine "Action Input: " = true →
      pyStartsWith secondLast "Action: " = false →
      get_action_and_input s = Except.error (PyErr.valueError
        "The second to last line does not have an action, something has gone terribly wrong.")) ∧
    (pyStartsWith lastLine "Action Input: " = false →
      get_action_and_input s = Except.error (PyErr.valueError
        "The last line does not have an action input, something has gone terribly wrong.")) ∧
    PyErr.valueError
        "The second to last line does not have an action, something has gone terribly wrong." ≠
      PyErr.valueError
        "The last line does not have an action input, something has gone terribly wrong." := by
  refine ⟨?_, ?_, by decide⟩
  · intro hai hac
    rw [get_eq_of_lastLine s _ hl, if_neg (by simp [hfa]),
      actionChecks_eq_of_secondLast _ _ _ hai hsl, if_pos (by simp [hac])]
  · intro hai
    rw [get_eq_of_lastLine s _ hl, if_neg (by simp [hfa])]
    exact actionChecks_eq_of_not_actionInput _ _ hai

/-- Witness for C7: a two-line input whose last line is an Action Input
line but whose second-to-last line carries no action. -/
theorem two_line_error_causes_witness :
    get_action_and_input "some musing\nAction Input: x" =
      Except.error (PyErr.valueError
        "The second to last line does not have an action, something has gone terribly wrong.") :=
  (two_line_error_causes "some musing\nAction Input: x" "Action Input: x"
    "some musing" (by decide) (by decide) (by decide)).1 (by decide) (by decide)

/-- C9: the parse result depends only on the last two non-empty lines —
two inputs whose non-empty-line sequences have the same last entry and
the same second-to-last entry (equality as `Option`, so also agreeing on
whether those entries exist) produce identical results, including
identical errors. -/
theorem parse_depends_only_on_last_two_lines (s t : String)
    (h1 : (nonEmptyLines s).getLast? = (nonEmptyLines t).getLast?)
    (h2 : (nonEmptyLines s).dropLast.getLast? = (nonEmptyLines t).dropLast.getLast?) :
    get_action_and_input s = get_action_and_input t := by
  unfold get_action_and_input actionChecks
  rw [h1, h2]

/-- Witness for C9: a transcript with two extra scratch lines parses
exactly like the bare two-line directive. -/
theorem parse_depends_only_on_last_two_lines_witness :
    get_action_and_input "scratch\n\nAction: A\nAction Input: b" =
      get_action_and_input "Action: A\nAction Input: b" :=
  parse_depends_only_on_last_two_lines _ _ (by decide) (by decide)

/-- C8: the rendered tool catalog is the `"name: description"` lines
joined by newline in registration order and the rendered names are the
comma-joined names in registration order; both are (pure, hence
deterministic) functions of the tool list, and permuting the tool list
permutes the rendered catalog entries and the rendered names without
changing their content. -/
theorem catalog_rendering_order_stable {F : Type} (ts us : List (Tool F))
    (h : ts.Perm us) :
    tool_strings ts = String.intercalate "\n"
        (ts.map (fun tool => tool.name ++ ": " ++ tool.description)) ∧
    tool_names ts = String.intercalate ", " (ts.map (fun tool => tool.name)) ∧
    (ts.map (fun tool => tool.name ++ ": " ++ tool.description)).Perm
      (us.map (fun tool => tool.name ++ ": " ++ tool.description)) ∧
    (ts.map (fun tool => tool.name)).Perm (us.map (fun tool => tool.name)) :=
  ⟨rfl, rfl, h.map _, h.map _⟩

/-- Witness for C8 with the two-tool registry `[Search, Calculator]` and
its swap. -/
theorem catalog_rendering_order_stable_witness :
    tool_strings [Tool.mk "Search" () "useful for search",
        Tool.mk "Calculator" () "useful for math"] =
      "Search: useful for search\nCalculator: useful for math" ∧
    ([Tool.mk "Search" () "useful for search",
        Tool.mk "Calculator" () "useful for math"].map
      (fun tool => tool.name ++ ": " ++ tool.description)).Perm
      ([Tool.mk "Calculator" () "useful for math",
          Tool.mk "Search" () "useful for search"].map
        (fun tool => tool.name ++ ": " ++ tool.description)) := by
  have h := catalog_rendering_order_stable
    [Tool.mk "Search" () "useful for search", Tool.mk "Calculator" () "useful for math"]
    [Tool.mk "Calculator" () "useful for math", Tool.mk "Search" () "useful for search"]
    (List.Perm.swap _ _ _)
  exact ⟨h.1.trans (by decide), h.2.2.1⟩

/-- C10: `MRKLChain.from_chains` builds, for any LLM, chain-config list
and kwargs, exactly the chain that `MRKLChain.from_tools_and_llm`
builds from the tool list
`[Tool(name=c.action_name, func=c.action, description=c.action_description) for c in chains]`
with the same LLM, the same base-template substitution and the same
kwargs. -/
theorem from_chains_eq_from_tools_and_llm {L F K : Type}
    (fmt : String → String → String) (llm : L)
    (chains : List (ChainConfig F)) (kwargs : K) :
    MRKLChain.from_chains fmt llm chains kwargs =
      MRKLChain.from_tools_and_llm fmt
        (chains.map (fun c => Tool.mk c.action_name c.action c.action_description))
        llm kwargs :=
  rfl
